import Mathlib

/-!
Shallow embedding of the CCID command layer (src/commands.c, src/ccid.h) and of
the T=1 parameter skeleton (src/openct/proto-t1.c, src/openct/proto-t1.h).

The USB transport (WritePort / ReadPort) is an external collaborator; it is
modelled by oracles: a write is a status value, a read is a status plus the
list of bytes it delivered, and a whole exchange is driven by a finite list of
read results (an empty list models a transport-level read failure, i.e. the
device stopped answering).  Buffers are lists of byte values (Nat); a byte at
an index beyond the bytes actually received is modelled as 0, matching the
contents-irrelevant reads of a partially filled C buffer.
-/

namespace CCID

/-- RESPONSECODE values returned to the caller (the closed result taxonomy). -/
inductive RESPONSECODE where
  | IFD_SUCCESS
  | IFD_COMMUNICATION_ERROR
  | IFD_NO_SUCH_DEVICE
  | IFD_NOT_SUPPORTED
  | IFD_ICC_NOT_PRESENT
  | IFD_PARITY_ERROR
  | IFD_ERROR_INSUFFICIENT_BUFFER
deriving DecidableEq, Repr

/-- Transport port status values consumed by the command layer. -/
inductive status_t where
  | success
  | noSuchDevice
  | commNak
  | unsuccessful
deriving DecidableEq, Repr

/-- One ReadPort outcome: the transport status and the bytes delivered. -/
structure ReadResult where
  status : status_t
  data : List Nat
deriving DecidableEq, Repr

/-- The per-reader descriptor fields used by the modelled commands
(_ccid_descriptor in src/ccid.h): sequence counter, read timeout,
slot index, feature flags and voltage support mask. -/
structure Descriptor where
  pbSeq : Nat
  readTimeout : Nat
  bCurrentSlotIndex : Nat
  dwFeatures : Nat
  bVoltageSupport : Nat
deriving DecidableEq, Repr

/-- Modelled from the spec: the status byte sits inside the bytes 7-9
region of the 10-byte response header (the numeric offset constant comes
from a header that is not part of the available source). -/
def STATUS_OFFSET : Nat := 7

/-- Modelled from the spec: the error byte sits inside the bytes 7-9
region of the 10-byte response header. -/
def ERROR_OFFSET : Nat := 8

/-- Modelled from the spec: the chain parameter byte is the last of the three
opcode-specific bytes of the header. -/
def CHAIN_PARAMETER_OFFSET : Nat := 9

/-- Modelled from the spec: the fixed 10-byte CCID response header size (the
constant itself lives in a header not part of the available source). -/
def CCID_RESPONSE_HEADER_SIZE : Nat := 10

/-- src/ccid.h: command-failed flag of the status byte. -/
def CCID_COMMAND_FAILED : Nat := 0x40

/-- src/ccid.h: time-extension flag of the status byte. -/
def CCID_TIME_EXTENSION : Nat := 0x80

/-- src/ccid.h: mask of the two ICC-state bits of the status byte. -/
def CCID_ICC_STATUS_MASK : Nat := 0x03

/-- src/ccid.h: ICC-state field value for an absent card. -/
def CCID_ICC_ABSENT : Nat := 0x02

/-- src/ccid.h: automatic voltage selection feature bit. -/
def CCID_CLASS_AUTO_VOLTAGE : Nat := 0x08

/-- src/ccid.h: automatic activation feature bit. -/
def CCID_CLASS_AUTO_ACTIVATION : Nat := 0x04

/-- Byte of a buffer at an index (0 when past the received bytes). -/
def byteAt (l : List Nat) (i : Nat) : Nat := l.getD i 0

/-- src/ccid.h dw2i: little-endian 4-byte integer at offset x of a buffer. -/
def dw2i (l : List Nat) (x : Nat) : Nat :=
  byteAt l x + 256 * byteAt l (x + 1) + 65536 * byteAt l (x + 2) +
    16777216 * byteAt l (x + 3)

/-- src/commands.c bei2i: big-endian 4-byte integer from a 4-byte buffer. -/
def bei2i (b : List Nat) : Nat :=
  16777216 * byteAt b 0 + 65536 * byteAt b 1 + 256 * byteAt b 2 + byteAt b 3

/-- src/commands.c i2dw: store an integer as 4 little-endian bytes. -/
def i2dw (value : Nat) : List Nat :=
  [value % 256, value / 256 % 256, value / 65536 % 256, value / 16777216 % 256]

/-- memcpy of n bytes out of a source buffer starting at an offset; bytes past
the received data are modelled as 0. The result always has length n. -/
def copyOut (l : List Nat) (start n : Nat) : List Nat :=
  (List.range n).map (fun i => byteAt l (start + i))

/-- Everything CCID_Receive hands back: the result code, the final value of
the caller's rx_length variable, the bytes written into the caller's buffer,
the descriptor readTimeout at return, and the chain parameter byte if asked. -/
structure RxResult where
  code : RESPONSECODE
  rxLength : Nat
  buf : List Nat
  timeout : Nat
  chain : Option Nat
deriving DecidableEq, Repr

/-- The time_request loop of CCID_Receive (src/commands.c lines 710-818).
old is the readTimeout stored at entry; cur the current readTimeout handed to
ReadPort; the loop consumes one read result per iteration.  The restore of
readTimeout to old happens right after every ReadPort, so every exit carries
old as the final timeout. -/
def ccidReceiveLoop (old rxLen : Nat) (hasBuf wantChain : Bool) :
    Nat → List ReadResult → RxResult
  | _cur, [] => ⟨.IFD_COMMUNICATION_ERROR, rxLen, [], old, none⟩
  | _cur, r :: rest =>
    if r.status = .noSuchDevice then ⟨.IFD_NO_SUCH_DEVICE, rxLen, [], old, none⟩
    else if r.status ≠ .success then ⟨.IFD_COMMUNICATION_ERROR, rxLen, [], old, none⟩
    else
      let cmd := r.data
      if cmd.length < CCID_RESPONSE_HEADER_SIZE then
        ⟨.IFD_COMMUNICATION_ERROR, rxLen, [], old, none⟩
      else if byteAt cmd STATUS_OFFSET &&& CCID_COMMAND_FAILED ≠ 0 then
        if byteAt cmd ERROR_OFFSET = 0xEF then
          if rxLen < 2 then ⟨.IFD_ERROR_INSUFFICIENT_BUFFER, rxLen, [], old, none⟩
          else ⟨.IFD_SUCCESS, 2, [0x64, 0x01], old, none⟩
        else if byteAt cmd ERROR_OFFSET = 0xF0 then
          if rxLen < 2 then ⟨.IFD_ERROR_INSUFFICIENT_BUFFER, rxLen, [], old, none⟩
          else ⟨.IFD_SUCCESS, 2, [0x64, 0x00], old, none⟩
        else if byteAt cmd ERROR_OFFSET = 0xFD then
          ⟨.IFD_PARITY_ERROR, rxLen, [], old, none⟩
        else if byteAt cmd ERROR_OFFSET = 0xFE then
          if byteAt cmd STATUS_OFFSET &&& 0x02 = 2 then
            ⟨.IFD_ICC_NOT_PRESENT, rxLen, [], old, none⟩
          else ⟨.IFD_COMMUNICATION_ERROR, rxLen, [], old, none⟩
        else ⟨.IFD_COMMUNICATION_ERROR, rxLen, [], old, none⟩
      else if byteAt cmd STATUS_OFFSET &&& CCID_TIME_EXTENSION ≠ 0 then
        ccidReceiveLoop old rxLen hasBuf wantChain
          (if byteAt cmd ERROR_OFFSET > 0 then old * byteAt cmd ERROR_OFFSET else old)
          rest
      else
        let declared := dw2i cmd 1
        let rv1 : RESPONSECODE :=
          if cmd.length - 10 ≠ declared then .IFD_COMMUNICATION_ERROR else .IFD_SUCCESS
        let lenOut := if declared ≤ rxLen then declared else rxLen
        let rv2 : RESPONSECODE :=
          if declared ≤ rxLen then rv1 else .IFD_ERROR_INSUFFICIENT_BUFFER
        let rv3 : RESPONSECODE :=
          if lenOut ≠ 0 ∧ hasBuf = false then .IFD_COMMUNICATION_ERROR else rv2
        let buf := if hasBuf ∧ lenOut ≠ 0 then copyOut cmd 10 lenOut else []
        ⟨rv3, lenOut, buf,
         old, if wantChain then some (byteAt cmd CHAIN_PARAMETER_OFFSET) else none⟩

/-- CCID_Receive (src/commands.c): stores the entry readTimeout and runs the
time_request loop.  hasBuf models whether rx_buffer is non-NULL; wantChain
whether chain_parameter is non-NULL. -/
def CCID_Receive (desc : Descriptor) (rxLen : Nat) (hasBuf wantChain : Bool)
    (reads : List ReadResult) : RxResult :=
  ccidReceiveLoop desc.readTimeout rxLen hasBuf wantChain desc.readTimeout reads

/-- Refinement reference for C1, written from the spec sentence: the result of
CCID_Receive for a response whose command-failed bit is set, as a function of
the status byte, error byte and caller buffer capacity (with the amended
absent-card test: bit 1 of the status byte). -/
def specFailedMapping (statusByte errByte rxLen timeoutAtEntry : Nat) : RxResult :=
  if errByte = 0xEF then
    if rxLen < 2 then ⟨.IFD_ERROR_INSUFFICIENT_BUFFER, rxLen, [], timeoutAtEntry, none⟩
    else ⟨.IFD_SUCCESS, 2, [0x64, 0x01], timeoutAtEntry, none⟩
  else if errByte = 0xF0 then
    if rxLen < 2 then ⟨.IFD_ERROR_INSUFFICIENT_BUFFER, rxLen, [], timeoutAtEntry, none⟩
    else ⟨.IFD_SUCCESS, 2, [0x64, 0x00], timeoutAtEntry, none⟩
  else if errByte = 0xFD then ⟨.IFD_PARITY_ERROR, rxLen, [], timeoutAtEntry, none⟩
  else if errByte = 0xFE then
    if statusByte &&& 0x02 = 2 then ⟨.IFD_ICC_NOT_PRESENT, rxLen, [], timeoutAtEntry, none⟩
    else ⟨.IFD_COMMUNICATION_ERROR, rxLen, [], timeoutAtEntry, none⟩
  else ⟨.IFD_COMMUNICATION_ERROR, rxLen, [], timeoutAtEntry, none⟩

/-!
CmdPowerOn voltage negotiation (src/commands.c lines 81-159).  The control
flow around the two goto labels (check_again and again) is embedded with an
explicit fuel argument: a result of none means the fuel ran out before the
code reached a return, so termination of the C loop at a given input is the
statement that some fuel yields some value.  The response to each power-on
attempt is abstracted by an oracle fails : Nat → Bool; fails k = true means
the k-th response carried the command-failed bit (the only outcome that
continues the again loop), false covers every terminating outcome (success,
transport failure, short response). -/

/-- The check_again goto loop: the pre-selection of a supported voltage
(src/commands.c lines 86-110).  One fuel unit per pass over the three ifs. -/
def checkAgainFuel (support : Nat) : Nat → Nat → Option Nat
  | 0, _ => none
  | fuel + 1, voltage =>
    let v1 := if voltage = 1 ∧ support &&& 1 = 0 then 2 else voltage
    let v2 := if v1 = 2 ∧ support &&& 2 = 0 then 3 else v1
    if v2 = 3 ∧ support &&& 4 = 0 then
      if support ≠ 0 then checkAgainFuel support fuel 1
      else some 1
    else some v2

/-- The voltage fallback step on a failed attempt: voltage is decremented and
wraps from 0 back to 3 (src/commands.c lines 147-151). -/
def nextVoltage (v : Nat) : Nat := if v - 1 = 0 then 3 else v - 1

/-- The again goto loop of CmdPowerOn: returns the ordered list of voltages
attempted (src/commands.c lines 113-158); init is init_voltage, k counts the
attempts made so far (feeding the response oracle). -/
def againFuel (init : Nat) (fails : Nat → Bool) : Nat → Nat → Nat → Option (List Nat)
  | 0, _, _ => none
  | fuel + 1, voltage, k =>
    if fails k then
      if voltage ≠ 0 then
        let v1 := nextVoltage voltage
        if v1 ≠ init then
          match againFuel init fails fuel v1 (k + 1) with
          | none => none
          | some l => some (voltage :: l)
        else some [voltage]
      else some [voltage]
    else some [voltage]

/-- CmdPowerOn's attempted-voltages sequence: auto-voltage feature flags force
voltage 0, otherwise the check_again pre-selection runs, then the again loop
(src/commands.c lines 81-159). -/
def CmdPowerOnAttemptsFuel (f1 f2 features support voltage : Nat)
    (fails : Nat → Bool) : Option (List Nat) :=
  let v0 : Option Nat :=
    if features &&& CCID_CLASS_AUTO_VOLTAGE ≠ 0 ∨
        features &&& CCID_CLASS_AUTO_ACTIVATION ≠ 0 then some 0
    else checkAgainFuel support f1 voltage
  match v0 with
  | none => none
  | some init => againFuel init fails f2 init 0

/-- CmdPowerOn terminates at an input when some fuel suffices for both loops. -/
def CmdPowerOnTerminates (features support voltage : Nat) (fails : Nat → Bool) : Prop :=
  ∃ f1 f2, (CmdPowerOnAttemptsFuel f1 f2 features support voltage fails).isSome

/-- The response oracle in which every attempt receives a command-failed
response. -/
def allFail : Nat → Bool := fun _ => true

/-!
Secure PIN commands (src/commands.c lines 179-410).  The PC/SC PIN block
is the TxBuffer byte list; TxLength is carried separately (in C it is an
independent parameter).
-/

/-- Modelled from the spec: get_U32 is defined in a header that is not part of
the available source; it reads a 32-bit value in host byte order.  The host's
endianness is a build-time property of the driver, modelled by the hostBE
parameter: a big-endian read on a big-endian host (the build the spec's
byte-order-correction sentence describes), a little-endian read otherwise. -/
def get_U32 (hostBE : Bool) (field : List Nat) : Nat :=
  if hostBE then bei2i field
  else byteAt field 0 + 256 * byteAt field 1 + 65536 * byteAt field 2 +
    16777216 * byteAt field 3

/-- The 4 bytes of a buffer at an offset. -/
def field4 (tx : List Nat) (i : Nat) : List Nat :=
  [byteAt tx i, byteAt tx (i + 1), byteAt tx (i + 2), byteAt tx (i + 3)]

/-- Modelled from the spec: p_bswap_16 (from a header not in the available
source) swaps the two bytes of a 16-bit field in place. -/
def bswapAt2 (l : List Nat) (i : Nat) : List Nat :=
  (l.set i (byteAt l (i + 1))).set (i + 1) (byteAt l i)

/-- Modelled from the spec: p_bswap_32 (from a header not in the available
source) reverses the four bytes of a 32-bit field in place. -/
def bswapAt4 (l : List Nat) (i : Nat) : List Nat :=
  ((((l.set i (byteAt l (i + 3))).set (i + 1) (byteAt l (i + 2))).set
    (i + 2) (byteAt l (i + 1))).set (i + 3) (byteAt l i))

/-- The byte-order correction shared by SecurePINVerify and SecurePINModify
(src/commands.c lines 208-220 and 313-325): if the host-order read of the
ulDataLength field is coherent with TxLength and equals the big-endian read,
the two 16-bit fields at o16a and o16b and the 32-bit field at o32 are
byte-swapped in place. -/
def pinEndianFix (hostBE : Bool) (o16a o16b o32 hdr txLength : Nat)
    (tx : List Nat) : List Nat :=
  let ul := get_U32 hostBE (field4 tx o32)
  if ul + hdr = txLength ∧ bei2i (field4 tx o32) = ul then
    bswapAt4 (bswapAt2 (bswapAt2 tx o16a) o16b) o32
  else tx

/-- Modelled from the spec: the PC/SC PIN_VERIFY_STRUCTURE layout (from an
external header) puts wPINMaxExtraDigit at offset 5, wLangId at offset 9 and
ulDataLength at offset 15, with 19 bytes of fixed fields before abData (the
offsets 15 and 19 are corroborated by src/commands.c lines 202 and 223). -/
def pinVerifyEndianFix (hostBE : Bool) (txLength : Nat) (tx : List Nat) : List Nat :=
  pinEndianFix hostBE 5 9 15 19 txLength tx

/-- Modelled from the spec: the PC/SC PIN_MODIFY_STRUCTURE layout (from an
external header) puts wPINMaxExtraDigit at offset 7, wLangId at offset 12 and
ulDataLength at offset 20, with 24 bytes of fixed fields before abData (the
offsets 20 and 24 are corroborated by src/commands.c lines 307 and 329). -/
def pinModifyEndianFix (hostBE : Bool) (txLength : Nat) (tx : List Nat) : List Nat :=
  pinEndianFix hostBE 7 12 20 24 txLength tx

/-- The repack loop of SecurePINVerify (src/commands.c lines 239-254): every
TxBuffer byte is copied except bTimeOut2 (index 1) and the four ulDataLength
bytes (indexes 15-18). -/
def secureVerifyRepack (tx : List Nat) : List Nat :=
  (List.range tx.length).filterMap
    (fun b => if b = 1 ∨ (15 ≤ b ∧ b ≤ 18) then none else some (byteAt tx b))

/-- The repack loop of SecurePINModify (src/commands.c lines 358-387):
bTimeOut2 (index 1) and ulDataLength (indexes 20-23) are dropped; bMsgIndex2
(index 15) is kept only when bNumberMessage (byte 11) is nonzero and
bMsgIndex3 (index 16) only when bNumberMessage is at least 3. -/
def secureModifyRepack (tx : List Nat) : List Nat :=
  (List.range tx.length).filterMap
    (fun b =>
      if b = 1 ∨ (20 ≤ b ∧ b ≤ 23) then none
      else if b = 15 ∧ byteAt tx 11 = 0 then none
      else if b = 16 ∧ byteAt tx 11 < 3 then none
      else some (byteAt tx b))

/-- What a secure PIN command call produces: the caller's result code, the
descriptor on return, the CCID frame that was handed to WritePort (empty when
a validation failure stopped the call before any transport I/O) and the
receive-path result when one was run. -/
structure PinCallResult where
  code : RESPONSECODE
  desc : Descriptor
  frame : List Nat
  rx : Option RxResult
deriving DecidableEq, Repr

/-- SecurePINVerify (src/commands.c lines 179-278).  The sequence counter is
incremented while the header is built, before any validation; validation
failures return before the read-timeout override, which is otherwise restored
on every exit path. -/
def SecurePINVerify (hostBE : Bool) (desc : Descriptor) (tx : List Nat)
    (rxLen : Nat) (writeSt : status_t) (reads : List ReadResult) : PinCallResult :=
  let desc1 := { desc with pbSeq := (desc.pbSeq + 1) % 256 }
  if tx.length < 19 + 4 then ⟨.IFD_NOT_SUPPORTED, desc1, [], none⟩
  else
    let tx1 := pinVerifyEndianFix hostBE tx.length tx
    if dw2i tx1 15 + 19 ≠ tx1.length then ⟨.IFD_NOT_SUPPORTED, desc1, [], none⟩
    else
      let tx2 := if byteAt tx1 7 = 0 ∨ byteAt tx1 7 > 7 then tx1.set 7 2 else tx1
      let payload := secureVerifyRepack tx2
      let frame := 0x69 :: i2dw (payload.length + 1) ++
        [desc.bCurrentSlotIndex, desc.pbSeq, 0, 0, 0, 0] ++ payload
      let old := desc.readTimeout
      let desc2 := { desc1 with readTimeout := max 90 (byteAt tx2 0 + 10) * 1000 }
      if writeSt = .success then
        let rx := CCID_Receive desc2 rxLen true false reads
        ⟨rx.code, { desc2 with readTimeout := old }, frame, some rx⟩
      else
        ⟨if writeSt = .noSuchDevice then .IFD_NO_SUCH_DEVICE
          else .IFD_COMMUNICATION_ERROR,
         { desc2 with readTimeout := old }, frame, none⟩

/-- SecurePINModify (src/commands.c lines 285-410); like SecurePINVerify with
the modify layout, plus the bNumberMessage validation (byte 11 must be at most
3 or exactly 0xFF). -/
def SecurePINModify (hostBE : Bool) (desc : Descriptor) (tx : List Nat)
    (rxLen : Nat) (writeSt : status_t) (reads : List ReadResult) : PinCallResult :=
  let desc1 := { desc with pbSeq := (desc.pbSeq + 1) % 256 }
  if tx.length < 24 + 4 then ⟨.IFD_NOT_SUPPORTED, desc1, [], none⟩
  else
    let tx1 := pinModifyEndianFix hostBE tx.length tx
    if dw2i tx1 20 + 24 ≠ tx1.length then ⟨.IFD_NOT_SUPPORTED, desc1, [], none⟩
    else if byteAt tx1 11 > 3 ∧ byteAt tx1 11 ≠ 0xFF then
      ⟨.IFD_NOT_SUPPORTED, desc1, [], none⟩
    else
      let tx2 := if byteAt tx1 10 = 0 ∨ byteAt tx1 10 > 7 then tx1.set 10 2 else tx1
      let payload := secureModifyRepack tx2
      let frame := 0x69 :: i2dw (payload.length + 1) ++
        [desc.bCurrentSlotIndex, desc.pbSeq, 0, 0, 0, 1] ++ payload
      let old := desc.readTimeout
      let desc2 := { desc1 with readTimeout := max 90 (byteAt tx2 0 + 10) * 1000 }
      if writeSt = .success then
        let rx := CCID_Receive desc2 rxLen true false reads
        ⟨rx.code, { desc2 with readTimeout := old }, frame, some rx⟩
      else
        ⟨if writeSt = .noSuchDevice then .IFD_NO_SUCH_DEVICE
          else .IFD_COMMUNICATION_ERROR,
         { desc2 with readTimeout := old }, frame, none⟩

/-!
CmdEscapeCheck (src/commands.c lines 432-554).  The two heap allocations and
the WritePort of each attempt are driven by oracles indexed by the attempt
number k (the again label re-runs all three); the reads are the shared finite
list, consumed one per ReadPort.  The frame content written (0x6B header plus
the caller's escape bytes) plays no role in any modelled observation and is
not tracked.
-/

/-- What CmdEscapeCheck hands back: result code, final rx_length, bytes
copied to the caller's buffer, and the descriptor on return. -/
structure EscResult where
  code : RESPONSECODE
  rxLength : Nat
  buf : List Nat
  desc : Descriptor
deriving DecidableEq, Repr

/-- One pass of the again block before the ReadPort: the two allocations and
the WritePort of attempt k (src/commands.c lines 452-489).  The sequence
counter is taken and incremented between the allocations and the write.
Left: proceed to the receive loop with the updated descriptor; right: the
error result of this exit path. -/
def escSendStep (desc : Descriptor) (alloc1 alloc2 : Nat → Bool)
    (writes : Nat → status_t) (k : Nat) :
    Descriptor ⊕ (RESPONSECODE × Descriptor) :=
  if alloc1 k = false then Sum.inr (.IFD_COMMUNICATION_ERROR, desc)
  else if alloc2 k = false then Sum.inr (.IFD_COMMUNICATION_ERROR, desc)
  else
    let desc1 := { desc with pbSeq := (desc.pbSeq + 1) % 256 }
    if writes k = .success then Sum.inl desc1
    else if writes k = .noSuchDevice then Sum.inr (.IFD_NO_SUCH_DEVICE, desc1)
    else Sum.inr (.IFD_COMMUNICATION_ERROR, desc1)

/-- The time_request loop of CmdEscapeCheck (src/commands.c lines 491-547),
including the replay-on-NAK jump back to the again label.  Unlike
CCID_Receive, a command-failed response does not return early: the response
payload is still copied out, and the declared length is never compared with
the bytes actually received. -/
def escRecvLoop (alloc1 alloc2 : Nat → Bool) (writes : Nat → status_t)
    (rxLen : Nat) : Nat → Descriptor → List ReadResult → EscResult
  | _k, desc, [] => ⟨.IFD_COMMUNICATION_ERROR, rxLen, [], desc⟩
  | k, desc, r :: rest =>
    if r.status = .commNak then
      match escSendStep desc alloc1 alloc2 writes (k + 1) with
      | Sum.inr (c, d) => ⟨c, rxLen, [], d⟩
      | Sum.inl d => escRecvLoop alloc1 alloc2 writes rxLen (k + 1) d rest
    else if r.status = .noSuchDevice then ⟨.IFD_NO_SUCH_DEVICE, rxLen, [], desc⟩
    else if r.status ≠ .success then ⟨.IFD_COMMUNICATION_ERROR, rxLen, [], desc⟩
    else if r.data.length < CCID_RESPONSE_HEADER_SIZE then
      ⟨.IFD_COMMUNICATION_ERROR, rxLen, [], desc⟩
    else if byteAt r.data STATUS_OFFSET &&& CCID_TIME_EXTENSION ≠ 0 then
      escRecvLoop alloc1 alloc2 writes rxLen k desc rest
    else
      let rv0 : RESPONSECODE :=
        if byteAt r.data STATUS_OFFSET &&& CCID_COMMAND_FAILED ≠ 0 then
          .IFD_COMMUNICATION_ERROR
        else .IFD_SUCCESS
      let declared := dw2i r.data 1
      let lenOut := if declared > rxLen then rxLen else declared
      let rv : RESPONSECODE :=
        if declared > rxLen then .IFD_ERROR_INSUFFICIENT_BUFFER else rv0
      ⟨rv, lenOut, copyOut r.data 10 lenOut, desc⟩

/-- CmdEscapeCheck (src/commands.c lines 432-554): optional scoped timeout
override (only when the timeout argument is nonzero), one send attempt, the
receive loop, and the restore of the read timeout at the end label.  The
mayfail flag only selects the log severity and changes no observable state. -/
def CmdEscapeCheck (desc : Descriptor) (rxLen timeout : Nat) (_mayfail : Bool)
    (alloc1 alloc2 : Nat → Bool) (writes : Nat → status_t)
    (reads : List ReadResult) : EscResult :=
  let old := desc.readTimeout
  let desc1 := if timeout > 0 then { desc with readTimeout := timeout } else desc
  let res :=
    match escSendStep desc1 alloc1 alloc2 writes 0 with
    | Sum.inr (c, d) => (⟨c, rxLen, [], d⟩ : EscResult)
    | Sum.inl d => escRecvLoop alloc1 alloc2 writes rxLen 0 d reads
  { res with desc := if timeout > 0 then { res.desc with readTimeout := old }
      else res.desc }

/-- CmdGetSlotStatus (src/commands.c lines 606-644): build and write the
GetSlotStatus frame, read the response; a command-failed status whose error
byte is 0xFE (card absent or mute) is not escalated to an error. -/
def CmdGetSlotStatus (desc : Descriptor) (writeSt : status_t) (r : ReadResult) :
    RESPONSECODE × Descriptor :=
  let desc1 := { desc with pbSeq := (desc.pbSeq + 1) % 256 }
  if writeSt = .noSuchDevice then (.IFD_NO_SUCH_DEVICE, desc1)
  else if writeSt ≠ .success then (.IFD_COMMUNICATION_ERROR, desc1)
  else if r.status = .noSuchDevice then (.IFD_NO_SUCH_DEVICE, desc1)
  else if r.status ≠ .success then (.IFD_COMMUNICATION_ERROR, desc1)
  else if r.data.length < CCID_RESPONSE_HEADER_SIZE then
    (.IFD_COMMUNICATION_ERROR, desc1)
  else if byteAt r.data STATUS_OFFSET &&& CCID_COMMAND_FAILED ≠ 0 ∧
      byteAt r.data ERROR_OFFSET ≠ 0xFE then
    (.IFD_COMMUNICATION_ERROR, desc1)
  else (.IFD_SUCCESS, desc1)

end CCID

namespace ProtoT1

/-!
T=1 parameter skeleton (src/openct/proto-t1.c, src/openct/proto-t1.h).
-/

/-- The t1_state_t structure (src/openct/proto-t1.h lines 49-63). -/
structure t1_state_t where
  lun : Int
  state : Int
  ifsc : Nat
  ifsd : Nat
  nad : Nat
  wtx : Nat
  rc_bytes : Nat
  more : Bool
  previous_block : List Nat
deriving DecidableEq, Repr

/-- src/openct/proto-t1.h parameter enumeration, value 0. -/
def IFD_PROTOCOL_T1_BLOCKSIZE : Int := 0

/-- src/openct/proto-t1.h parameter enumeration, value 1. -/
def IFD_PROTOCOL_T1_CHECKSUM_CRC : Int := 1

/-- src/openct/proto-t1.h parameter enumeration, value 2. -/
def IFD_PROTOCOL_T1_CHECKSUM_LRC : Int := 2

/-- src/openct/proto-t1.h parameter enumeration, value 3. -/
def IFD_PROTOCOL_T1_IFSC : Int := 3

/-- src/openct/proto-t1.h parameter enumeration, value 4. -/
def IFD_PROTOCOL_T1_IFSD : Int := 4

/-- src/openct/proto-t1.h parameter enumeration, value 5. -/
def IFD_PROTOCOL_T1_STATE : Int := 5

/-- src/openct/proto-t1.h parameter enumeration, value 6. -/
def IFD_PROTOCOL_T1_MORE : Int := 6

/-- src/openct/proto-t1.h parameter enumeration, value 7. -/
def IFD_PROTOCOL_T1_NAD : Int := 7

/-- src/openct/proto-t1.c internal state enumeration. -/
def SENDING : Int := 0

/-- Conversion of a C long value to an unsigned int field. -/
def toUInt32 (v : Int) : Nat := (v % 4294967296).toNat

/-- Conversion of a C long value to a signed int field. -/
def toInt32 (v : Int) : Int := (v + 2147483648) % 4294967296 - 2147483648

/-- t1_set_checksum (src/openct/proto-t1.c lines 65-75). -/
def t1_set_checksum (t1 : t1_state_t) (csum : Int) : t1_state_t :=
  if csum = IFD_PROTOCOL_T1_CHECKSUM_LRC then { t1 with rc_bytes := 1 }
  else if csum = IFD_PROTOCOL_T1_CHECKSUM_CRC then { t1 with rc_bytes := 2 }
  else t1

/-- t1_set_param (src/openct/proto-t1.c lines 105-133): typed setter over the
parameter enumeration; an unrecognized key returns -1 and changes nothing. -/
def t1_set_param (t1 : t1_state_t) (type : Int) (value : Int) : Int × t1_state_t :=
  if type = IFD_PROTOCOL_T1_CHECKSUM_LRC ∨ type = IFD_PROTOCOL_T1_CHECKSUM_CRC then
    (0, t1_set_checksum t1 type)
  else if type = IFD_PROTOCOL_T1_IFSC then (0, { t1 with ifsc := toUInt32 value })
  else if type = IFD_PROTOCOL_T1_IFSD then (0, { t1 with ifsd := toUInt32 value })
  else if type = IFD_PROTOCOL_T1_STATE then (0, { t1 with state := toInt32 value })
  else if type = IFD_PROTOCOL_T1_MORE then (0, { t1 with more := value ≠ 0 })
  else if type = IFD_PROTOCOL_T1_NAD then (0, { t1 with nad := toUInt32 value })
  else (-1, t1)

/-- t1_set_defaults (src/openct/proto-t1.c lines 57-63). -/
def t1_set_defaults (t1 : t1_state_t) : t1_state_t :=
  { t1 with ifsc := 32, ifsd := 32 }

/-- t1_init (src/openct/proto-t1.c lines 80-91). -/
def t1_init (t1 : t1_state_t) (lun : Int) : Int × t1_state_t :=
  let t := t1_set_defaults t1
  let t := (t1_set_param t IFD_PROTOCOL_T1_CHECKSUM_LRC 0).2
  let t := (t1_set_param t IFD_PROTOCOL_T1_STATE SENDING).2
  let t := (t1_set_param t IFD_PROTOCOL_T1_MORE 0).2
  let t := (t1_set_param t IFD_PROTOCOL_T1_NAD 0).2
  (0, { t with lun := lun })

end ProtoT1

namespace CCID

/-- Allocation oracle in which every malloc succeeds. -/
def allocOk : Nat → Bool := fun _ => true

/-- Write oracle in which every WritePort succeeds. -/
def writeOk : Nat → status_t := fun _ => .success

/-- The 19 fixed-field bytes of a PIN verification block whose ulDataLength
bytes (offsets 15-18) are the palindrome 00 01 01 00, read as 65792 in either
byte order, and whose wLangId bytes (offsets 9-10) are 04 09. -/
def c6pre : List Nat := [30, 0, 0, 0, 0, 0, 0, 2, 0, 4, 9, 0, 0, 0, 0, 0, 1, 1, 0]

/-- A full PIN verification block of total length 65811 = 65792 + 19: its
little-endian-read data-length field is coherent with the block length. -/
def c6tx : List Nat := c6pre ++ List.replicate 65792 0

/-- A 23-byte PIN verification block whose data-length field 00 00 00 04 is
big-endian coherent (4 + 19 = 23) but not little-endian coherent. -/
def c6be : List Nat :=
  [30, 0, 0, 0, 0, 0x34, 0x12, 2, 0, 9, 4, 0, 0, 0, 0, 0, 0, 0, 4, 0x90, 0, 0x63, 0x10]

end CCID

/-! ## Shared helper lemmas -/

namespace CCID

theorem copyOut_length (l : List Nat) (start n : Nat) : (copyOut l start n).length = n := by
  simp [copyOut]

theorem byteAt_set_self (l : List Nat) (i a : Nat) (h : i < l.length) :
    byteAt (l.set i a) i = a := by
  simp [byteAt, List.getD_eq_getElem?_getD, List.getElem?_set_eq_of_lt a h]

theorem byteAt_set_ne (l : List Nat) (i j a : Nat) (h : i ≠ j) :
    byteAt (l.set i a) j = byteAt l j := by
  simp [byteAt, List.getD_eq_getElem?_getD, List.getElem?_set_ne h]

theorem bswapAt2_length (l : List Nat) (i : Nat) : (bswapAt2 l i).length = l.length := by
  simp [bswapAt2]

theorem bswapAt4_length (l : List Nat) (i : Nat) : (bswapAt4 l i).length = l.length := by
  simp [bswapAt4]

theorem byteAt_bswapAt2_ne (l : List Nat) (i j : Nat) (h1 : j ≠ i) (h2 : j ≠ i + 1) :
    byteAt (bswapAt2 l i) j = byteAt l j := by
  unfold bswapAt2
  rw [byteAt_set_ne _ _ _ _ (fun he => h2 he.symm),
    byteAt_set_ne _ _ _ _ (fun he => h1 he.symm)]

theorem byteAt_bswapAt2_fst (l : List Nat) (i : Nat) (h : i + 1 < l.length) :
    byteAt (bswapAt2 l i) i = byteAt l (i + 1) := by
  unfold bswapAt2
  rw [byteAt_set_ne _ _ _ _ (by omega), byteAt_set_self]
  omega

theorem byteAt_bswapAt2_snd (l : List Nat) (i : Nat) (h : i + 1 < l.length) :
    byteAt (bswapAt2 l i) (i + 1) = byteAt l i := by
  unfold bswapAt2
  rw [byteAt_set_self]
  simpa using h

theorem byteAt_bswapAt4_ne (l : List Nat) (i j : Nat)
    (h1 : j ≠ i) (h2 : j ≠ i + 1) (h3 : j ≠ i + 2) (h4 : j ≠ i + 3) :
    byteAt (bswapAt4 l i) j = byteAt l j := by
  unfold bswapAt4
  rw [byteAt_set_ne _ _ _ _ (fun he => h4 he.symm),
    byteAt_set_ne _ _ _ _ (fun he => h3 he.symm),
    byteAt_set_ne _ _ _ _ (fun he => h2 he.symm),
    byteAt_set_ne _ _ _ _ (fun he => h1 he.symm)]

theorem byteAt_bswapAt4_0 (l : List Nat) (i : Nat) (h : i + 3 < l.length) :
    byteAt (bswapAt4 l i) i = byteAt l (i + 3) := by
  unfold bswapAt4
  rw [byteAt_set_ne _ _ _ _ (by omega), byteAt_set_ne _ _ _ _ (by omega),
    byteAt_set_ne _ _ _ _ (by omega), byteAt_set_self]
  omega

theorem byteAt_bswapAt4_1 (l : List Nat) (i : Nat) (h : i + 3 < l.length) :
    byteAt (bswapAt4 l i) (i + 1) = byteAt l (i + 2) := by
  unfold bswapAt4
  rw [byteAt_set_ne _ _ _ _ (by omega), byteAt_set_ne _ _ _ _ (by omega),
    byteAt_set_self]
  simp only [List.length_set]
  omega

theorem byteAt_bswapAt4_2 (l : List Nat) (i : Nat) (h : i + 3 < l.length) :
    byteAt (bswapAt4 l i) (i + 2) = byteAt l (i + 1) := by
  unfold bswapAt4
  rw [byteAt_set_ne _ _ _ _ (by omega), byteAt_set_self]
  simp only [List.length_set]
  omega

theorem byteAt_bswapAt4_3 (l : List Nat) (i : Nat) (h : i + 3 < l.length) :
    byteAt (bswapAt4 l i) (i + 3) = byteAt l i := by
  unfold bswapAt4
  rw [byteAt_set_self]
  simp only [List.length_set]
  omega

end CCID

/-! ## C9 -/

/-- C9: for every t1_set_param call with a key outside the enumeration
{checksum-LRC, checksum-CRC, IFSC, IFSD, state, more-flag, NAD}, the call
returns failure (-1) and the T=1 state record (hence each of its fields ifsc,
ifsd, nad, state, more, rc_bytes, previous_block, lun) is left unchanged. -/
theorem C9_set_param_unknown_key (t1 : ProtoT1.t1_state_t) (type value : Int)
    (h1 : type ≠ ProtoT1.IFD_PROTOCOL_T1_CHECKSUM_LRC)
    (h2 : type ≠ ProtoT1.IFD_PROTOCOL_T1_CHECKSUM_CRC)
    (h3 : type ≠ ProtoT1.IFD_PROTOCOL_T1_IFSC)
    (h4 : type ≠ ProtoT1.IFD_PROTOCOL_T1_IFSD)
    (h5 : type ≠ ProtoT1.IFD_PROTOCOL_T1_STATE)
    (h6 : type ≠ ProtoT1.IFD_PROTOCOL_T1_MORE)
    (h7 : type ≠ ProtoT1.IFD_PROTOCOL_T1_NAD) :
    ProtoT1.t1_set_param t1 type value = (-1, t1) := by
  simp [ProtoT1.t1_set_param, h1, h2, h3, h4, h5, h6, h7]

/-- Witness for C9 at the concrete unsupported key 0 (BLOCKSIZE). -/
theorem C9_witness :
    ProtoT1.t1_set_param ⟨0, 0, 32, 32, 0, 0, 1, false, [0, 0, 0, 0]⟩ 0 77 =
      (-1, ⟨0, 0, 32, 32, 0, 0, 1, false, [0, 0, 0, 0]⟩) :=
  C9_set_param_unknown_key ⟨0, 0, 32, 32, 0, 0, 1, false, [0, 0, 0, 0]⟩ 0 77
    (by decide) (by decide) (by decide) (by decide) (by decide) (by decide) (by decide)

/-! ## C8 -/

/-- C8: a CmdGetSlotStatus call whose response has the command-failed bit set
with error byte 0xFE and ICC-state bits indicating an absent card returns
success, not communication-error. -/
theorem C8_slot_status_mute_card (desc : CCID.Descriptor) (writeSt : CCID.status_t)
    (r : CCID.ReadResult)
    (hw : writeSt = .success)
    (hr : r.status = .success)
    (hlen : 10 ≤ r.data.length)
    (hfail : CCID.byteAt r.data CCID.STATUS_OFFSET &&& CCID.CCID_COMMAND_FAILED ≠ 0)
    (herr : CCID.byteAt r.data CCID.ERROR_OFFSET = 0xFE)
    (hicc : CCID.byteAt r.data CCID.STATUS_OFFSET &&& CCID.CCID_ICC_STATUS_MASK =
      CCID.CCID_ICC_ABSENT) :
    (CCID.CmdGetSlotStatus desc writeSt r).1 = .IFD_SUCCESS := by
  subst hw
  simp [CCID.CmdGetSlotStatus, hr, Nat.not_lt.mpr hlen, herr,
    CCID.CCID_RESPONSE_HEADER_SIZE]

/-- Witness for C8: a concrete mute-card response (status byte 0x42: command
failed, ICC absent; error byte 0xFE). -/
theorem C8_witness :
    (CCID.CmdGetSlotStatus ⟨7, 3000, 0, 0, 7⟩ .success
      ⟨.success, [0x81, 0, 0, 0, 0, 0, 7, 0x42, 0xFE, 0]⟩).1 = .IFD_SUCCESS :=
  C8_slot_status_mute_card ⟨7, 3000, 0, 0, 7⟩ .success
    ⟨.success, [0x81, 0, 0, 0, 0, 0, 7, 0x42, 0xFE, 0]⟩
    rfl rfl (by decide) (by decide) (by decide) (by decide)

/-! ## C10 -/

/-- C10: every call to SecurePINVerify or SecurePINModify increments the
reader descriptor sequence counter exactly once (an increment of the
byte-wide counter), including calls rejected by local validation before any
transport write. -/
theorem C10_secure_pin_seq_increment (hostBE : Bool) (desc : CCID.Descriptor)
    (tx : List Nat) (rxLen : Nat) (writeSt : CCID.status_t)
    (reads : List CCID.ReadResult) :
    (CCID.SecurePINVerify hostBE desc tx rxLen writeSt reads).desc.pbSeq =
      (desc.pbSeq + 1) % 256 ∧
    (CCID.SecurePINModify hostBE desc tx rxLen writeSt reads).desc.pbSeq =
      (desc.pbSeq + 1) % 256 := by
  constructor
  · simp only [CCID.SecurePINVerify]
    split_ifs <;> rfl
  · simp only [CCID.SecurePINModify]
    split_ifs <;> rfl

/-! ## C5 -/

namespace CCID

set_option maxHeartbeats 1000000 in
theorem ccidReceiveLoop_timeout (old rxLen : Nat) (hasBuf wantChain : Bool) :
    ∀ (reads : List ReadResult) (cur : Nat),
      (ccidReceiveLoop old rxLen hasBuf wantChain cur reads).timeout = old := by
  intro reads
  induction reads with
  | nil => intro cur; rfl
  | cons r rest ih =>
    intro cur
    simp only [ccidReceiveLoop]
    split_ifs <;> first | rfl | apply ih

theorem escSendStep_inl_readTimeout (desc : Descriptor) (alloc1 alloc2 : Nat → Bool)
    (writes : Nat → status_t) (k : Nat) (d : Descriptor)
    (h : escSendStep desc alloc1 alloc2 writes k = Sum.inl d) :
    d.readTimeout = desc.readTimeout := by
  simp only [escSendStep] at h
  split_ifs at h <;>
    first
      | (injection h with h2; subst h2; rfl)
      | simp at h

theorem escSendStep_inr_readTimeout (desc : Descriptor) (alloc1 alloc2 : Nat → Bool)
    (writes : Nat → status_t) (k : Nat) (c : RESPONSECODE) (d : Descriptor)
    (h : escSendStep desc alloc1 alloc2 writes k = Sum.inr (c, d)) :
    d.readTimeout = desc.readTimeout := by
  simp only [escSendStep] at h
  split_ifs at h <;>
    first
      | (injection h with h2; injection h2 with hc hd; subst hd; rfl)
      | simp at h

theorem escRecvLoop_readTimeout (alloc1 alloc2 : Nat → Bool)
    (writes : Nat → status_t) (rxLen : Nat) :
    ∀ (reads : List ReadResult) (k : Nat) (desc : Descriptor),
      (escRecvLoop alloc1 alloc2 writes rxLen k desc reads).desc.readTimeout =
        desc.readTimeout := by
  intro reads
  induction reads with
  | nil => intro k desc; rfl
  | cons r rest ih =>
    intro k desc
    simp only [escRecvLoop]
    by_cases hnak : r.status = status_t.commNak
    · rw [if_pos hnak]
      cases hstep : escSendStep desc alloc1 alloc2 writes (k + 1) with
      | inl d =>
        rw [ih (k + 1) d]
        exact escSendStep_inl_readTimeout desc alloc1 alloc2 writes (k + 1) d hstep
      | inr cd =>
        obtain ⟨c, d⟩ := cd
        simpa using
          escSendStep_inr_readTimeout desc alloc1 alloc2 writes (k + 1) c d hstep
    · rw [if_neg hnak]
      split_ifs <;> first | rfl | exact ih k desc

end CCID

/-- C5: for every call to SecurePINVerify, SecurePINModify, CmdEscapeCheck and
CCID_Receive, on every exit path (transport failure, early allocation failure,
validation failure after the override, success), the descriptor readTimeout on
return equals its value at entry. -/
theorem C5_timeout_restored (hostBE : Bool) (desc : CCID.Descriptor)
    (tx : List Nat) (rxLen rxLen2 timeout : Nat) (writeSt : CCID.status_t)
    (reads reads2 : List CCID.ReadResult) (mayfail hasBuf wantChain : Bool)
    (alloc1 alloc2 : Nat → Bool) (writes : Nat → CCID.status_t) :
    (CCID.SecurePINVerify hostBE desc tx rxLen writeSt reads).desc.readTimeout =
      desc.readTimeout ∧
    (CCID.SecurePINModify hostBE desc tx rxLen writeSt reads).desc.readTimeout =
      desc.readTimeout ∧
    (CCID.CmdEscapeCheck desc rxLen timeout mayfail alloc1 alloc2 writes
      reads2).desc.readTimeout = desc.readTimeout ∧
    (CCID.CCID_Receive desc rxLen2 hasBuf wantChain reads2).timeout =
      desc.readTimeout := by
  refine ⟨?_, ?_, ?_, ?_⟩
  · simp only [CCID.SecurePINVerify]
    split_ifs <;> rfl
  · simp only [CCID.SecurePINModify]
    split_ifs <;> rfl
  · simp only [CCID.CmdEscapeCheck]
    by_cases ht : timeout > 0
    · simp [ht]
    · simp only [ht, if_false]
      cases hstep : CCID.escSendStep desc alloc1 alloc2 writes 0 with
      | inl d =>
        rw [CCID.escRecvLoop_readTimeout alloc1 alloc2 writes rxLen reads2 0 d]
        exact CCID.escSendStep_inl_readTimeout desc alloc1 alloc2 writes 0 d hstep
      | inr cd =>
        obtain ⟨c, d⟩ := cd
        simpa using
          CCID.escSendStep_inr_readTimeout desc alloc1 alloc2 writes 0 c d hstep
  · exact CCID.ccidReceiveLoop_timeout desc.readTimeout rxLen2 hasBuf wantChain
      reads2 desc.readTimeout

/-! ## C4 -/

/-- C4: whenever the declared payload length of a received frame exceeds the
caller-supplied buffer capacity, CCID_Receive returns insufficient-buffer and
copies exactly buffer-capacity bytes of the payload into the caller's buffer,
never more. -/
theorem C4_overrun_truncates (desc : CCID.Descriptor) (rxLen : Nat)
    (wantChain : Bool) (r : CCID.ReadResult) (rest : List CCID.ReadResult)
    (hs : r.status = .success)
    (hlen : 10 ≤ r.data.length)
    (hnf : CCID.byteAt r.data CCID.STATUS_OFFSET &&& CCID.CCID_COMMAND_FAILED = 0)
    (hne : CCID.byteAt r.data CCID.STATUS_OFFSET &&& CCID.CCID_TIME_EXTENSION = 0)
    (hover : rxLen < CCID.dw2i r.data 1) :
    (CCID.CCID_Receive desc rxLen true wantChain (r :: rest)).code =
      .IFD_ERROR_INSUFFICIENT_BUFFER ∧
    (CCID.CCID_Receive desc rxLen true wantChain (r :: rest)).rxLength = rxLen ∧
    (CCID.CCID_Receive desc rxLen true wantChain (r :: rest)).buf =
      CCID.copyOut r.data 10 rxLen ∧
    (CCID.CCID_Receive desc rxLen true wantChain (r :: rest)).buf.length = rxLen := by
  by_cases hr0 : rxLen = 0
  · simp_all [CCID.CCID_Receive, CCID.ccidReceiveLoop, hs,
      CCID.CCID_RESPONSE_HEADER_SIZE, Nat.not_lt.mpr hlen, Nat.not_le.mpr hover,
      CCID.copyOut_length, CCID.copyOut]
    intro h
    exact absurd h (by omega)
  · simp_all [CCID.CCID_Receive, CCID.ccidReceiveLoop, hs,
      CCID.CCID_RESPONSE_HEADER_SIZE, Nat.not_lt.mpr hlen, Nat.not_le.mpr hover,
      CCID.copyOut_length, CCID.copyOut]

/-- Witness for C4: an 11-byte frame declaring 5 payload bytes against a
3-byte caller buffer. -/
theorem C4_witness :
    (CCID.CCID_Receive ⟨1, 100, 0, 0, 0⟩ 3 true false
      [⟨.success, [0x80, 5, 0, 0, 0, 0, 1, 0, 0, 0, 0xAB]⟩]).code =
      .IFD_ERROR_INSUFFICIENT_BUFFER ∧
    (CCID.CCID_Receive ⟨1, 100, 0, 0, 0⟩ 3 true false
      [⟨.success, [0x80, 5, 0, 0, 0, 0, 1, 0, 0, 0, 0xAB]⟩]).buf.length = 3 := by
  have h := C4_overrun_truncates ⟨1, 100, 0, 0, 0⟩ 3 false
    ⟨.success, [0x80, 5, 0, 0, 0, 0, 1, 0, 0, 0, 0xAB]⟩ []
    rfl (by decide) (by decide) (by decide) (by decide)
  exact ⟨h.1, h.2.2.2⟩

/-! ## C1 -/

/-- C1 (amended): for every response frame processed by CCID_Receive whose
status byte has the command-failed bit set, the result is determined by the
error byte: 0xEF yields success with the synthesized response 64 01
(insufficient-buffer if the caller's buffer holds fewer than 2 bytes), 0xF0
yields success with 64 00, 0xFD yields parity-error, 0xFE yields
ICC-not-present when bit 1 of the status byte (the absent bit of the
ICC-state field) is set and communication-error otherwise, and every other
error byte yields communication-error. -/
theorem C1_failed_frame_mapping (desc : CCID.Descriptor) (rxLen : Nat)
    (hasBuf wantChain : Bool) (r : CCID.ReadResult) (rest : List CCID.ReadResult)
    (hs : r.status = .success)
    (hlen : 10 ≤ r.data.length)
    (hfail : CCID.byteAt r.data CCID.STATUS_OFFSET &&& CCID.CCID_COMMAND_FAILED ≠ 0) :
    CCID.CCID_Receive desc rxLen hasBuf wantChain (r :: rest) =
      CCID.specFailedMapping (CCID.byteAt r.data CCID.STATUS_OFFSET)
        (CCID.byteAt r.data CCID.ERROR_OFFSET) rxLen desc.readTimeout := by
  simp only [CCID.CCID_Receive, CCID.ccidReceiveLoop, CCID.specFailedMapping, hs,
    CCID.CCID_RESPONSE_HEADER_SIZE]
  rw [if_neg (by decide), if_neg (by simp), if_neg (Nat.not_lt.mpr hlen),
    if_pos hfail]

/-- Counterexample for C1: a failed frame with error byte 0xFE whose status
byte 0x43 has ICC-state field 3 (not the absent value 2); CCID_Receive still
returns ICC-not-present, where the claim demands communication-error. -/
theorem C1_counterexample :
    (CCID.CCID_Receive ⟨0, 1000, 0, 0, 0⟩ 10 true false
      [⟨.success, [0x80, 0, 0, 0, 0, 0, 0, 0x43, 0xFE, 0]⟩]).code =
      .IFD_ICC_NOT_PRESENT ∧
    CCID.byteAt [0x80, 0, 0, 0, 0, 0, 0, 0x43, 0xFE, 0] CCID.STATUS_OFFSET &&&
      CCID.CCID_ICC_STATUS_MASK ≠ CCID.CCID_ICC_ABSENT := by
  decide

/-- Witness for C1 at a concrete timeout-error frame (error byte 0xF0). -/
theorem C1_witness :
    CCID.CCID_Receive ⟨0, 500, 0, 0, 0⟩ 10 true false
      [⟨.success, [0x80, 0, 0, 0, 0, 0, 0, 0x40, 0xF0, 0]⟩] =
      CCID.specFailedMapping
        (CCID.byteAt [0x80, 0, 0, 0, 0, 0, 0, 0x40, 0xF0, 0] CCID.STATUS_OFFSET)
        (CCID.byteAt [0x80, 0, 0, 0, 0, 0, 0, 0x40, 0xF0, 0] CCID.ERROR_OFFSET)
        10 500 :=
  C1_failed_frame_mapping ⟨0, 500, 0, 0, 0⟩ 10 true false
    ⟨.success, [0x80, 0, 0, 0, 0, 0, 0, 0x40, 0xF0, 0]⟩ []
    rfl (by decide) (by decide)

/-! ## C3 -/

/-- C3 (amended): on CCID_Receive's receive path, a response frame whose
declared payload length differs from the payload bytes actually read yields a
non-success result: communication-error, except that when the declared length
also exceeds the caller's buffer the overrun result insufficient-buffer
supersedes it.  CmdEscapeCheck's receive path performs no declared-vs-actual
check at all: a mismatched frame that fits the caller's buffer is delivered
with a success result. -/
theorem C3_length_mismatch_flagging :
    (∀ (desc : CCID.Descriptor) (rxLen : Nat) (wantChain : Bool)
      (r : CCID.ReadResult) (rest : List CCID.ReadResult),
      r.status = .success → 10 ≤ r.data.length →
      CCID.byteAt r.data CCID.STATUS_OFFSET &&& CCID.CCID_COMMAND_FAILED = 0 →
      CCID.byteAt r.data CCID.STATUS_OFFSET &&& CCID.CCID_TIME_EXTENSION = 0 →
      r.data.length - 10 ≠ CCID.dw2i r.data 1 →
      (CCID.CCID_Receive desc rxLen true wantChain (r :: rest)).code =
        (if CCID.dw2i r.data 1 ≤ rxLen then CCID.RESPONSECODE.IFD_COMMUNICATION_ERROR
          else CCID.RESPONSECODE.IFD_ERROR_INSUFFICIENT_BUFFER) ∧
      (CCID.CCID_Receive desc rxLen true wantChain (r :: rest)).code ≠
        CCID.RESPONSECODE.IFD_SUCCESS) ∧
    (∀ (desc : CCID.Descriptor) (rxLen timeout : Nat) (mayfail : Bool)
      (alloc1 alloc2 : Nat → Bool) (writes : Nat → CCID.status_t)
      (r : CCID.ReadResult) (rest : List CCID.ReadResult),
      alloc1 0 = true → alloc2 0 = true → writes 0 = .success →
      r.status = .success → 10 ≤ r.data.length →
      CCID.byteAt r.data CCID.STATUS_OFFSET &&& CCID.CCID_COMMAND_FAILED = 0 →
      CCID.byteAt r.data CCID.STATUS_OFFSET &&& CCID.CCID_TIME_EXTENSION = 0 →
      CCID.dw2i r.data 1 ≤ rxLen →
      r.data.length - 10 ≠ CCID.dw2i r.data 1 →
      (CCID.CmdEscapeCheck desc rxLen timeout mayfail alloc1 alloc2 writes
        (r :: rest)).code = CCID.RESPONSECODE.IFD_SUCCESS) := by
  constructor
  · intro desc rxLen wantChain r rest hs hlen hnf hne hmis
    have hcode : (CCID.CCID_Receive desc rxLen true wantChain (r :: rest)).code =
        (if CCID.dw2i r.data 1 ≤ rxLen then CCID.RESPONSECODE.IFD_COMMUNICATION_ERROR
          else CCID.RESPONSECODE.IFD_ERROR_INSUFFICIENT_BUFFER) := by
      by_cases hd : CCID.dw2i r.data 1 ≤ rxLen <;>
        simp_all [CCID.CCID_Receive, CCID.ccidReceiveLoop,
          CCID.CCID_RESPONSE_HEADER_SIZE, Nat.not_lt.mpr hlen]
    refine ⟨hcode, ?_⟩
    rw [hcode]
    split <;> decide
  · intro desc rxLen timeout mayfail alloc1 alloc2 writes r rest ha1 ha2 hw hs
      hlen hnf hne hfit hmis
    simp_all [CCID.CmdEscapeCheck, CCID.escSendStep, CCID.escRecvLoop,
      CCID.CCID_RESPONSE_HEADER_SIZE, Nat.not_lt.mpr hlen, Nat.not_lt.mpr hfit]

/-- Counterexample for C3: an escape response that declares 1 payload byte but
actually carries 2 (12 bytes read in total); CmdEscapeCheck returns plain
success and silently delivers 1 byte, where the claim demands a
communication-error on every receive path. -/
theorem C3_counterexample :
    (CCID.CmdEscapeCheck ⟨0, 1000, 0, 0, 0⟩ 8 0 false CCID.allocOk CCID.allocOk
        CCID.writeOk
        [⟨.success, [0x83, 1, 0, 0, 0, 0, 0, 0, 0, 0, 0xAA, 0xBB]⟩]).code =
      .IFD_SUCCESS ∧
    [0x83, 1, 0, 0, 0, 0, 0, 0, 0, 0, 0xAA, 0xBB].length - 10 ≠
      CCID.dw2i [0x83, 1, 0, 0, 0, 0, 0, 0, 0, 0, 0xAA, 0xBB] 1 := by
  decide

/-- Witness for C3 at a concrete mismatched frame (declares 1 byte, carries
2) against a 4-byte caller buffer, on both receive paths. -/
theorem C3_witness :
    (CCID.CCID_Receive ⟨0, 1000, 0, 0, 0⟩ 4 true false
      [⟨.success, [0x80, 1, 0, 0, 0, 0, 0, 0, 0, 0, 0xAA, 0xBB]⟩]).code =
      .IFD_COMMUNICATION_ERROR ∧
    (CCID.CmdEscapeCheck ⟨0, 1000, 0, 0, 0⟩ 4 5000 true CCID.allocOk CCID.allocOk
      CCID.writeOk [⟨.success, [0x80, 1, 0, 0, 0, 0, 0, 0, 0, 0, 0xAA, 0xBB]⟩]).code =
      .IFD_SUCCESS := by
  constructor
  · have h := (C3_length_mismatch_flagging.1 ⟨0, 1000, 0, 0, 0⟩ 4 false
      ⟨.success, [0x80, 1, 0, 0, 0, 0, 0, 0, 0, 0, 0xAA, 0xBB]⟩ []
      rfl (by decide) (by decide) (by decide) (by decide)).1
    simpa using h
  · exact C3_length_mismatch_flagging.2 ⟨0, 1000, 0, 0, 0⟩ 4 5000 true
      CCID.allocOk CCID.allocOk CCID.writeOk
      ⟨.success, [0x80, 1, 0, 0, 0, 0, 0, 0, 0, 0, 0xAA, 0xBB]⟩ []
      rfl rfl rfl rfl (by decide) (by decide) (by decide) (by decide) (by decide)

/-! ## C2 and C7: CmdPowerOn voltage negotiation -/

namespace CCID

theorem checkAgainFuel_none_support8 : ∀ f, checkAgainFuel 8 f 1 = none := by
  intro f
  induction f with
  | zero => rfl
  | succ n ih => simpa [checkAgainFuel] using ih

theorem checkAgainFuel_some (support voltage : Nat)
    (hsup : support = 0 ∨ support &&& 1 ≠ 0 ∨ support &&& 2 ≠ 0 ∨ support &&& 4 ≠ 0)
    (hv : voltage ≤ 3) :
    ∃ v, checkAgainFuel support 2 voltage = some v ∧ v ≤ 3 := by
  by_cases h0 : support = 0
  · subst h0
    interval_cases voltage
    · exact ⟨0, by decide, by decide⟩
    · exact ⟨1, by decide, by decide⟩
    · exact ⟨1, by decide, by decide⟩
    · exact ⟨1, by decide, by decide⟩
  · have halt : support &&& 1 ≠ 0 ∨ support &&& 2 ≠ 0 ∨ support &&& 4 ≠ 0 := by
      rcases hsup with h | h | h | h
      · exact absurd h h0
      · exact Or.inl h
      · exact Or.inr (Or.inl h)
      · exact Or.inr (Or.inr h)
    clear hsup
    by_cases b1 : support &&& 1 = 0 <;> by_cases b2 : support &&& 2 = 0 <;>
      by_cases b4 : support &&& 4 = 0 <;> interval_cases voltage <;>
      first
        | exact halt.elim (fun h => absurd b1 h)
            (fun h => h.elim (fun h2 => absurd b2 h2) (fun h4 => absurd b4 h4))
        | (refine ⟨0, ?_, by decide⟩; simp_all [checkAgainFuel]; done)
        | (refine ⟨1, ?_, by decide⟩; simp_all [checkAgainFuel]; done)
        | (refine ⟨2, ?_, by decide⟩; simp_all [checkAgainFuel]; done)
        | (refine ⟨3, ?_, by decide⟩; simp_all [checkAgainFuel]; done)

theorem againFuel_attempts (init : Nat) (fails : Nat → Bool) (hinit : init ≤ 3) :
    ∃ l, againFuel init fails 4 init 0 = some l ∧
      l.count 1 ≤ 1 ∧ l.count 2 ≤ 1 ∧ l.count 3 ≤ 1 ∧ l.length ≤ 3 := by
  interval_cases init <;>
    rcases h0 : fails 0 <;> rcases h1 : fails 1 <;> rcases h2 : fails 2 <;>
    first
      | (refine ⟨[0], ?_, by decide, by decide, by decide, by decide⟩;
          simp_all [againFuel, nextVoltage]; done)
      | (refine ⟨[1], ?_, by decide, by decide, by decide, by decide⟩;
          simp_all [againFuel, nextVoltage]; done)
      | (refine ⟨[2], ?_, by decide, by decide, by decide, by decide⟩;
          simp_all [againFuel, nextVoltage]; done)
      | (refine ⟨[3], ?_, by decide, by decide, by decide, by decide⟩;
          simp_all [againFuel, nextVoltage]; done)
      | (refine ⟨[1, 3], ?_, by decide, by decide, by decide, by decide⟩;
          simp_all [againFuel, nextVoltage]; done)
      | (refine ⟨[2, 1], ?_, by decide, by decide, by decide, by decide⟩;
          simp_all [againFuel, nextVoltage]; done)
      | (refine ⟨[3, 2], ?_, by decide, by decide, by decide, by decide⟩;
          simp_all [againFuel, nextVoltage]; done)
      | (refine ⟨[1, 3, 2], ?_, by decide, by decide, by decide, by decide⟩;
          simp_all [againFuel, nextVoltage]; done)
      | (refine ⟨[2, 1, 3], ?_, by decide, by decide, by decide, by decide⟩;
          simp_all [againFuel, nextVoltage]; done)
      | (refine ⟨[3, 2, 1], ?_, by decide, by decide, by decide, by decide⟩;
          simp_all [againFuel, nextVoltage]; done)

end CCID

/-- C2 (amended): for every reader configuration whose voltage-support
bitmask is zero or advertises at least one of the three defined voltages
(bits 1, 2, 4), and every requested voltage in the defined range 0-3,
CmdPowerOn attempts each of the voltages 5V, 3V and 1.8V at most once per
call and always terminates, even when every attempt receives a
command-failed response. -/
theorem C2_power_on_attempts (features support voltage : Nat) (fails : Nat → Bool)
    (hsup : support = 0 ∨ support &&& 1 ≠ 0 ∨ support &&& 2 ≠ 0 ∨ support &&& 4 ≠ 0)
    (hv : voltage ≤ 3) :
    CCID.CmdPowerOnTerminates features support voltage fails ∧
    ∀ l, CCID.CmdPowerOnAttemptsFuel 2 4 features support voltage fails = some l →
      l.count 1 ≤ 1 ∧ l.count 2 ≤ 1 ∧ l.count 3 ≤ 1 ∧ l.length ≤ 3 := by
  by_cases hauto : features &&& CCID.CCID_CLASS_AUTO_VOLTAGE ≠ 0 ∨
      features &&& CCID.CCID_CLASS_AUTO_ACTIVATION ≠ 0
  · obtain ⟨l, hl, hc1, hc2, hc3, hc4⟩ := CCID.againFuel_attempts 0 fails (by decide)
    constructor
    · exact ⟨2, 4, by simp [CCID.CmdPowerOnAttemptsFuel, hauto, hl]⟩
    · intro l2 h2
      simp only [CCID.CmdPowerOnAttemptsFuel, if_pos hauto, hl] at h2
      obtain rfl : l = l2 := by simpa using h2
      exact ⟨hc1, hc2, hc3, hc4⟩
  · obtain ⟨v, hv2, hv3⟩ := CCID.checkAgainFuel_some support voltage hsup hv
    obtain ⟨l, hl, hc1, hc2, hc3, hc4⟩ := CCID.againFuel_attempts v fails hv3
    constructor
    · exact ⟨2, 4, by simp [CCID.CmdPowerOnAttemptsFuel, hauto, hv2, hl]⟩
    · intro l2 h2
      simp only [CCID.CmdPowerOnAttemptsFuel, if_neg hauto, hv2, hl] at h2
      obtain rfl : l = l2 := by simpa using h2
      exact ⟨hc1, hc2, hc3, hc4⟩

/-- Counterexample for C2: with auto-voltage off, requested voltage 5V and the
nonzero voltage-support bitmask 8 (none of the three defined voltage bits),
the check_again pre-selection loop of CmdPowerOn never reaches a return for
any amount of fuel: the call does not terminate, where the claim asserts
termination for every bitmask. -/
theorem C2_counterexample : ¬ CCID.CmdPowerOnTerminates 0 8 1 CCID.allFail := by
  rintro ⟨f1, f2, h⟩
  simp [CCID.CmdPowerOnAttemptsFuel, CCID.checkAgainFuel_none_support8 f1] at h

/-- Witness for C2 at a concrete configuration: support mask 1 (5V only),
requested 3V, every attempt failing. -/
theorem C2_witness : CCID.CmdPowerOnTerminates 0 1 2 CCID.allFail :=
  (C2_power_on_attempts 0 1 2 CCID.allFail (by decide) (by decide)).1

/-- C7 (amended): when the reader advertises support for zero voltages and
auto-voltage mode is off, CmdPowerOn coerces any requested voltage in
{5V, 3V, 1.8V} to 5V and, on command-failed responses, still walks the
fallback cycle: it attempts 5V, then 1.8V, then 3V, stopping early at the
first response without the command-failed bit. -/
theorem C7_zero_support_attempts (features voltage : Nat) (fails : Nat → Bool)
    (h8 : features &&& CCID.CCID_CLASS_AUTO_VOLTAGE = 0)
    (h4 : features &&& CCID.CCID_CLASS_AUTO_ACTIVATION = 0)
    (h1 : 1 ≤ voltage) (h3 : voltage ≤ 3) :
    CCID.CmdPowerOnAttemptsFuel 2 4 features 0 voltage fails =
      some (if fails 0 = false then [1]
        else if fails 1 = false then [1, 3] else [1, 3, 2]) := by
  have hca : CCID.checkAgainFuel 0 2 voltage = some 1 := by
    interval_cases voltage <;> decide
  rcases h0 : fails 0 <;> rcases hf1 : fails 1 <;> rcases hf2 : fails 2 <;>
    simp_all [CCID.CmdPowerOnAttemptsFuel, CCID.againFuel, CCID.nextVoltage]

/-- Counterexample for C7: auto-voltage off, zero voltage support, requested
3V, every response command-failed: CmdPowerOn makes three attempts [5V, 1.8V,
3V], not a single attempt at the requested 3V. -/
theorem C7_counterexample :
    CCID.CmdPowerOnAttemptsFuel 2 4 0 0 2 CCID.allFail = some [1, 3, 2] ∧
    [1, 3, 2] ≠ [2] := by
  decide

/-- Witness for C7 at requested voltage 1.8V with every attempt failing. -/
theorem C7_witness :
    CCID.CmdPowerOnAttemptsFuel 2 4 0 0 3 CCID.allFail = some [1, 3, 2] := by
  have h := C7_zero_support_attempts 0 3 CCID.allFail (by decide) (by decide)
    (by decide) (by decide)
  simpa [CCID.allFail] using h

/-! ## C6: PIN-block endianness correction -/

namespace CCID

theorem get_U32_false_eq (tx : List Nat) (i : Nat) :
    get_U32 false (field4 tx i) = dw2i tx i := by
  simp [get_U32, field4, dw2i, byteAt]

theorem get_U32_true_eq (f : List Nat) : get_U32 true f = bei2i f := by
  simp [get_U32]

theorem byteAt_append_left (l m : List Nat) (j : Nat) (h : j < l.length) :
    byteAt (l ++ m) j = byteAt l j := by
  simp [byteAt, List.getD_eq_getElem?_getD, List.getElem?_append_left h]

theorem pinEndianFix_not_fired (hostBE : Bool) (o16a o16b o32 hdr txLength : Nat)
    (tx : List Nat)
    (hle : dw2i tx o32 + hdr = txLength)
    (hbe : bei2i (field4 tx o32) + hdr ≠ txLength) :
    pinEndianFix hostBE o16a o16b o32 hdr txLength tx = tx := by
  unfold pinEndianFix
  cases hostBE
  · rw [get_U32_false_eq]
    rw [if_neg]
    rintro ⟨h1, h2⟩
    rw [h2] at hbe
    exact hbe hle
  · rw [get_U32_true_eq]
    rw [if_neg]
    rintro ⟨h1, h2⟩
    exact hbe h1

theorem pinEndianFix_fired_true (o16a o16b o32 hdr txLength : Nat) (tx : List Nat)
    (hbe : bei2i (field4 tx o32) + hdr = txLength) :
    pinEndianFix true o16a o16b o32 hdr txLength tx =
      bswapAt4 (bswapAt2 (bswapAt2 tx o16a) o16b) o32 := by
  unfold pinEndianFix
  rw [get_U32_true_eq, if_pos ⟨hbe, rfl⟩]

theorem pinEndianFix_fired_false (o16a o16b o32 hdr txLength : Nat) (tx : List Nat)
    (hle : dw2i tx o32 + hdr = txLength)
    (hpal : bei2i (field4 tx o32) = dw2i tx o32) :
    pinEndianFix false o16a o16b o32 hdr txLength tx =
      bswapAt4 (bswapAt2 (bswapAt2 tx o16a) o16b) o32 := by
  unfold pinEndianFix
  rw [get_U32_false_eq, if_pos ⟨hle, hpal⟩]

theorem swapped_block_bytes (o16a o16b o32 : Nat) (tx : List Nat)
    (hab : o16a + 1 < o16b) (hbo : o16b + 1 < o32) (hlen : o32 + 4 ≤ tx.length) :
    (bswapAt4 (bswapAt2 (bswapAt2 tx o16a) o16b) o32).length = tx.length ∧
    byteAt (bswapAt4 (bswapAt2 (bswapAt2 tx o16a) o16b) o32) o16a =
      byteAt tx (o16a + 1) ∧
    byteAt (bswapAt4 (bswapAt2 (bswapAt2 tx o16a) o16b) o32) (o16a + 1) =
      byteAt tx o16a ∧
    byteAt (bswapAt4 (bswapAt2 (bswapAt2 tx o16a) o16b) o32) o16b =
      byteAt tx (o16b + 1) ∧
    byteAt (bswapAt4 (bswapAt2 (bswapAt2 tx o16a) o16b) o32) (o16b + 1) =
      byteAt tx o16b ∧
    byteAt (bswapAt4 (bswapAt2 (bswapAt2 tx o16a) o16b) o32) o32 =
      byteAt tx (o32 + 3) ∧
    byteAt (bswapAt4 (bswapAt2 (bswapAt2 tx o16a) o16b) o32) (o32 + 1) =
      byteAt tx (o32 + 2) ∧
    byteAt (bswapAt4 (bswapAt2 (bswapAt2 tx o16a) o16b) o32) (o32 + 2) =
      byteAt tx (o32 + 1) ∧
    byteAt (bswapAt4 (bswapAt2 (bswapAt2 tx o16a) o16b) o32) (o32 + 3) =
      byteAt tx o32 ∧
    ∀ j, j ≠ o16a → j ≠ o16a + 1 → j ≠ o16b → j ≠ o16b + 1 →
      j ≠ o32 → j ≠ o32 + 1 → j ≠ o32 + 2 → j ≠ o32 + 3 →
      byteAt (bswapAt4 (bswapAt2 (bswapAt2 tx o16a) o16b) o32) j = byteAt tx j := by
  have l1 : (bswapAt2 tx o16a).length = tx.length := bswapAt2_length tx o16a
  have l2 : (bswapAt2 (bswapAt2 tx o16a) o16b).length = tx.length := by
    rw [bswapAt2_length, l1]
  refine ⟨?_, ?_, ?_, ?_, ?_, ?_, ?_, ?_, ?_, ?_⟩
  · rw [bswapAt4_length, l2]
  · rw [byteAt_bswapAt4_ne _ _ _ (by omega) (by omega) (by omega) (by omega),
      byteAt_bswapAt2_ne _ _ _ (by omega) (by omega),
      byteAt_bswapAt2_fst _ _ (by omega)]
  · rw [byteAt_bswapAt4_ne _ _ _ (by omega) (by omega) (by omega) (by omega),
      byteAt_bswapAt2_ne _ _ _ (by omega) (by omega),
      byteAt_bswapAt2_snd _ _ (by omega)]
  · rw [byteAt_bswapAt4_ne _ _ _ (by omega) (by omega) (by omega) (by omega),
      byteAt_bswapAt2_fst _ _ (by rw [l1]; omega),
      byteAt_bswapAt2_ne _ _ _ (by omega) (by omega)]
  · rw [byteAt_bswapAt4_ne _ _ _ (by omega) (by omega) (by omega) (by omega),
      byteAt_bswapAt2_snd _ _ (by rw [l1]; omega),
      byteAt_bswapAt2_ne _ _ _ (by omega) (by omega)]
  · rw [byteAt_bswapAt4_0 _ _ (by rw [l2]; omega),
      byteAt_bswapAt2_ne _ _ _ (by omega) (by omega),
      byteAt_bswapAt2_ne _ _ _ (by omega) (by omega)]
  · rw [byteAt_bswapAt4_1 _ _ (by rw [l2]; omega),
      byteAt_bswapAt2_ne _ _ _ (by omega) (by omega),
      byteAt_bswapAt2_ne _ _ _ (by omega) (by omega)]
  · rw [byteAt_bswapAt4_2 _ _ (by rw [l2]; omega),
      byteAt_bswapAt2_ne _ _ _ (by omega) (by omega),
      byteAt_bswapAt2_ne _ _ _ (by omega) (by omega)]
  · rw [byteAt_bswapAt4_3 _ _ (by rw [l2]; omega),
      byteAt_bswapAt2_ne _ _ _ (by omega) (by omega),
      byteAt_bswapAt2_ne _ _ _ (by omega) (by omega)]
  · intro j h1 h2 h3 h4 h5 h6 h7 h8
    rw [byteAt_bswapAt4_ne _ _ _ h5 h6 h7 h8,
      byteAt_bswapAt2_ne _ _ _ h3 h4,
      byteAt_bswapAt2_ne _ _ _ h1 h2]

end CCID

/-- C6 (amended): the byte-order correction of SecurePINVerify and
SecurePINModify leaves a block unaltered whenever its little-endian-read
data-length field is coherent with the total length and its big-endian read
is not (in particular whenever the field is not a byte palindrome); and on a
big-endian host, for every block whose big-endian-read data-length field is
coherent with the total length, exactly the three fields wPINMaxExtraDigit,
wLangId and ulDataLength are byte-reversed and nothing else changes.  (When
the data-length field is a palindrome, both readings coincide, the correction
fires even on a little-endian-coherent block, and the two 16-bit fields are
swapped: the unaltered-ness part of the original claim fails there.) -/
theorem C6_pin_endian_correction :
    (∀ (hostBE : Bool) (txLength : Nat) (tx : List Nat),
      CCID.dw2i tx 15 + 19 = txLength →
      CCID.bei2i (CCID.field4 tx 15) + 19 ≠ txLength →
      CCID.pinVerifyEndianFix hostBE txLength tx = tx) ∧
    (∀ (hostBE : Bool) (txLength : Nat) (tx : List Nat),
      CCID.dw2i tx 20 + 24 = txLength →
      CCID.bei2i (CCID.field4 tx 20) + 24 ≠ txLength →
      CCID.pinModifyEndianFix hostBE txLength tx = tx) ∧
    (∀ (txLength : Nat) (tx : List Nat),
      19 ≤ tx.length →
      CCID.bei2i (CCID.field4 tx 15) + 19 = txLength →
      (CCID.pinVerifyEndianFix true txLength tx).length = tx.length ∧
      CCID.byteAt (CCID.pinVerifyEndianFix true txLength tx) 5 = CCID.byteAt tx 6 ∧
      CCID.byteAt (CCID.pinVerifyEndianFix true txLength tx) 6 = CCID.byteAt tx 5 ∧
      CCID.byteAt (CCID.pinVerifyEndianFix true txLength tx) 9 = CCID.byteAt tx 10 ∧
      CCID.byteAt (CCID.pinVerifyEndianFix true txLength tx) 10 = CCID.byteAt tx 9 ∧
      CCID.byteAt (CCID.pinVerifyEndianFix true txLength tx) 15 = CCID.byteAt tx 18 ∧
      CCID.byteAt (CCID.pinVerifyEndianFix true txLength tx) 16 = CCID.byteAt tx 17 ∧
      CCID.byteAt (CCID.pinVerifyEndianFix true txLength tx) 17 = CCID.byteAt tx 16 ∧
      CCID.byteAt (CCID.pinVerifyEndianFix true txLength tx) 18 = CCID.byteAt tx 15 ∧
      ∀ j, j ≠ 5 → j ≠ 6 → j ≠ 9 → j ≠ 10 → j ≠ 15 → j ≠ 16 → j ≠ 17 → j ≠ 18 →
        CCID.byteAt (CCID.pinVerifyEndianFix true txLength tx) j = CCID.byteAt tx j) ∧
    (∀ (txLength : Nat) (tx : List Nat),
      24 ≤ tx.length →
      CCID.bei2i (CCID.field4 tx 20) + 24 = txLength →
      (CCID.pinModifyEndianFix true txLength tx).length = tx.length ∧
      CCID.byteAt (CCID.pinModifyEndianFix true txLength tx) 7 = CCID.byteAt tx 8 ∧
      CCID.byteAt (CCID.pinModifyEndianFix true txLength tx) 8 = CCID.byteAt tx 7 ∧
      CCID.byteAt (CCID.pinModifyEndianFix true txLength tx) 12 = CCID.byteAt tx 13 ∧
      CCID.byteAt (CCID.pinModifyEndianFix true txLength tx) 13 = CCID.byteAt tx 12 ∧
      CCID.byteAt (CCID.pinModifyEndianFix true txLength tx) 20 = CCID.byteAt tx 23 ∧
      CCID.byteAt (CCID.pinModifyEndianFix true txLength tx) 21 = CCID.byteAt tx 22 ∧
      CCID.byteAt (CCID.pinModifyEndianFix true txLength tx) 22 = CCID.byteAt tx 21 ∧
      CCID.byteAt (CCID.pinModifyEndianFix true txLength tx) 23 = CCID.byteAt tx 20 ∧
      ∀ j, j ≠ 7 → j ≠ 8 → j ≠ 12 → j ≠ 13 → j ≠ 20 → j ≠ 21 → j ≠ 22 → j ≠ 23 →
        CCID.byteAt (CCID.pinModifyEndianFix true txLength tx) j = CCID.byteAt tx j) := by
  refine ⟨?_, ?_, ?_, ?_⟩
  · intro hostBE txLength tx hle hbe
    exact CCID.pinEndianFix_not_fired hostBE 5 9 15 19 txLength tx hle hbe
  · intro hostBE txLength tx hle hbe
    exact CCID.pinEndianFix_not_fired hostBE 7 12 20 24 txLength tx hle hbe
  · intro txLength tx hlen hbe
    have hfix : CCID.pinVerifyEndianFix true txLength tx =
        CCID.bswapAt4 (CCID.bswapAt2 (CCID.bswapAt2 tx 5) 9) 15 :=
      CCID.pinEndianFix_fired_true 5 9 15 19 txLength tx hbe
    rw [hfix]
    exact CCID.swapped_block_bytes 5 9 15 tx (by omega) (by omega) (by omega)
  · intro txLength tx hlen hbe
    have hfix : CCID.pinModifyEndianFix true txLength tx =
        CCID.bswapAt4 (CCID.bswapAt2 (CCID.bswapAt2 tx 7) 12) 20 :=
      CCID.pinEndianFix_fired_true 7 12 20 24 txLength tx hbe
    rw [hfix]
    exact CCID.swapped_block_bytes 7 12 20 tx (by omega) (by omega) (by omega)

/-- Counterexample for C6: the block c6tx has total length 65811 and
little-endian data-length 65792 = 65811 - 19, so it is a little-endian-
coherent block; yet because the field bytes 00 01 01 00 form a palindrome the
correction fires (on either host byte order) and alters the block (it swaps
the wLangId bytes), where the claim asserts such a block is not altered. -/
theorem C6_counterexample :
    CCID.dw2i CCID.c6tx 15 + 19 = CCID.c6tx.length ∧
    CCID.pinVerifyEndianFix false CCID.c6tx.length CCID.c6tx ≠ CCID.c6tx ∧
    CCID.pinVerifyEndianFix true CCID.c6tx.length CCID.c6tx ≠ CCID.c6tx := by
  have hpre : CCID.c6pre.length = 19 := by decide
  have hlen : CCID.c6tx.length = 65811 := by
    rw [CCID.c6tx, List.length_append, List.length_replicate, hpre]
  have hb : ∀ j, j < 19 → CCID.byteAt CCID.c6tx j = CCID.byteAt CCID.c6pre j := by
    intro j hj
    exact CCID.byteAt_append_left CCID.c6pre _ j (by omega)
  have hdw : CCID.dw2i CCID.c6tx 15 = 65792 := by
    rw [CCID.dw2i, hb 15 (by omega), hb 16 (by omega), hb 17 (by omega),
      hb 18 (by omega)]
    decide
  have hbei : CCID.bei2i (CCID.field4 CCID.c6tx 15) = 65792 := by
    simp only [CCID.field4, hb 15 (by omega), hb 16 (by omega), hb 17 (by omega),
      hb 18 (by omega)]
    decide
  have hsw := CCID.swapped_block_bytes 5 9 15 CCID.c6tx (by omega) (by omega)
    (by omega)
  have h9f : CCID.byteAt
      (CCID.bswapAt4 (CCID.bswapAt2 (CCID.bswapAt2 CCID.c6tx 5) 9) 15) 9 = 9 := by
    rw [hsw.2.2.2.1, hb 10 (by omega)]
    decide
  have h9tx : CCID.byteAt CCID.c6tx 9 = 4 := by
    rw [hb 9 (by omega)]
    decide
  refine ⟨by rw [hdw, hlen], ?_, ?_⟩
  · have hfix : CCID.pinVerifyEndianFix false CCID.c6tx.length CCID.c6tx =
        CCID.bswapAt4 (CCID.bswapAt2 (CCID.bswapAt2 CCID.c6tx 5) 9) 15 :=
      CCID.pinEndianFix_fired_false 5 9 15 19 CCID.c6tx.length CCID.c6tx
        (by rw [hdw, hlen]) (by rw [hbei, hdw])
    intro h
    have h2 : CCID.byteAt (CCID.pinVerifyEndianFix false CCID.c6tx.length CCID.c6tx) 9 =
        CCID.byteAt CCID.c6tx 9 := congrArg (fun l => CCID.byteAt l 9) h
    rw [hfix, h9f, h9tx] at h2
    exact absurd h2 (by decide)
  · have hfix : CCID.pinVerifyEndianFix true CCID.c6tx.length CCID.c6tx =
        CCID.bswapAt4 (CCID.bswapAt2 (CCID.bswapAt2 CCID.c6tx 5) 9) 15 :=
      CCID.pinEndianFix_fired_true 5 9 15 19 CCID.c6tx.length CCID.c6tx
        (by rw [hbei, hlen])
    intro h
    have h2 : CCID.byteAt (CCID.pinVerifyEndianFix true CCID.c6tx.length CCID.c6tx) 9 =
        CCID.byteAt CCID.c6tx 9 := congrArg (fun l => CCID.byteAt l 9) h
    rw [hfix, h9f, h9tx] at h2
    exact absurd h2 (by decide)

/-- Witness for C6: a little-endian-coherent 23-byte verify block with a
non-palindromic data-length field is unaltered, and the big-endian-coherent
block c6be has its ulDataLength byte at offset 15 replaced by the byte at
offset 18. -/
theorem C6_witness :
    CCID.pinVerifyEndianFix false 23
      [30, 0, 0, 0, 0, 0, 0, 2, 0, 9, 4, 0, 0, 0, 0, 4, 0, 0, 0, 1, 2, 3, 4] =
      [30, 0, 0, 0, 0, 0, 0, 2, 0, 9, 4, 0, 0, 0, 0, 4, 0, 0, 0, 1, 2, 3, 4] ∧
    CCID.byteAt (CCID.pinVerifyEndianFix true CCID.c6be.length CCID.c6be) 15 =
      CCID.byteAt CCID.c6be 18 := by
  constructor
  · exact C6_pin_endian_correction.1 false 23
      [30, 0, 0, 0, 0, 0, 0, 2, 0, 9, 4, 0, 0, 0, 0, 4, 0, 0, 0, 1, 2, 3, 4]
      (by decide) (by decide)
  · exact (C6_pin_endian_correction.2.2.1 CCID.c6be.length CCID.c6be
      (by decide) (by decide)).2.2.2.2.2.1
